import Mathlib

/-!
Verification of the irrigation-planning dashboard (`src/app.py`).

The numeric core of the program (crop-coefficient model, irrigation
calculator, polygon-area computation, ET₀ averaging, and the integrated
simulation branch) is embedded shallowly: Python floats become `ℚ`,
fallible code (uncaught `ZeroDivisionError`, caught parse errors, missing
upstream data) becomes `Option`, and external services (HTTP responses,
the pyproj coordinate transformer, the xlwings spreadsheet bridge) become
explicit inputs to the embedded functions.
-/

namespace ArgriAI

/-- A crop parameter set, the shape of the entries of the `params` dict
inside `calculate_kcb_from_ndvi` (`app.py` lines 174-177).  The source
stores `eta` as the float `1.0` and uses it as the exponent `ratio ** eta`;
both defined profiles carry `eta = 1.0`, so the exponent is embedded as the
natural number `1`. -/
structure CropProfile where
  Kcb_max : ℚ
  Kcb_min : ℚ
  VI_max : ℚ
  VI_min : ℚ
  eta : ℕ
deriving DecidableEq, Repr

/-- The "Rice" entry of the `params` dict (`app.py` line 175). -/
def riceProfile : CropProfile :=
  { Kcb_max := 1, Kcb_min := 3/20, VI_max := 9/10, VI_min := 1/10, eta := 1 }

/-- The "Custom" entry of the `params` dict (`app.py` line 176). -/
def customProfile : CropProfile :=
  { Kcb_max := 1, Kcb_min := 3/20, VI_max := 9/10, VI_min := 1/10, eta := 1 }

/-- `params.get(crop, params["Custom"])` (`app.py` line 178): look the crop
name up in the dict, falling back to the "Custom" profile for unknown
names. -/
def profileFor (crop : String) : CropProfile :=
  if crop = "Rice" then riceProfile
  else if crop = "Custom" then customProfile
  else customProfile

/-- `calculate_kcb_from_ndvi` (`app.py` lines 173-182): clamp NDVI into
`[VI_min, VI_max]`, form the linear interpolation fraction, raise it to
`eta`, and rescale into `[Kcb_min, Kcb_max]`. -/
def calculate_kcb_from_ndvi (ndvi : ℚ) (crop : String := "Rice") : ℚ :=
  let p := profileFor crop
  let ndviClamped := max p.VI_min (min ndvi p.VI_max)
  let vr := (ndviClamped - p.VI_min) / (p.VI_max - p.VI_min)
  (p.Kcb_max - p.Kcb_min) * vr ^ p.eta + p.Kcb_min

/-- `calculate_irrigation` (`app.py` lines 184-188).  The source divides by
`efficiency / 100.0` with no guard; in Python a zero divisor raises an
uncaught `ZeroDivisionError`, embedded here as `none`.  Otherwise the
triple `(ET_crop_calc, net_irrigation, gross_irrigation)` is returned. -/
def calculate_irrigation (et0 Kcb field_area efficiency : ℚ) :
    Option (ℚ × ℚ × ℚ) :=
  let ET_crop_calc := et0 * Kcb
  let net_irrigation := ET_crop_calc * field_area * 10
  if efficiency / 100 = 0 then none
  else some (ET_crop_calc, net_irrigation, net_irrigation / (efficiency / 100))

/-- A planar point, the coordinate pairs shapely geometries carry. -/
abbrev Point := ℚ × ℚ

/-- A shapely geometry as `shape(geojson)` (`app.py` line 138) produces it
for polygon input: a polygon is an exterior ring with a list of hole rings,
a multi-polygon is a list of such pairs.  Rings are stored closed (the
first coordinate repeated at the end), as shapely normalizes them. -/
inductive Geometry where
  | polygon (exterior : List Point) (holes : List (List Point))
  | multiPolygon (parts : List (List Point × List (List Point)))
deriving DecidableEq, Repr

/-- `x_a * y_b - x_b * y_a`, one term of the shoelace sum. -/
def cross (a b : Point) : ℚ := a.1 * b.2 - b.1 * a.2

/-- The shoelace sum over the consecutive edges of a closed ring, twice its
signed area: the area algorithm the GEOS library runs under shapely's
`.area`. -/
def shoelaceSum : List Point → ℚ
  | [] => 0
  | [_] => 0
  | a :: b :: rest => cross a b + shoelaceSum (b :: rest)

/-- Shapely's area of one polygon: the absolute ring area of the shell
minus the absolute ring areas of the holes. -/
def polygonArea (exterior : List Point) (holes : List (List Point)) : ℚ :=
  |shoelaceSum exterior| / 2 - (holes.map fun h => |shoelaceSum h| / 2).sum

/-- Shapely's `.area` (`app.py` line 141): a polygon's own area, or the sum
over the parts of a multi-polygon. -/
def shapelyArea : Geometry → ℚ
  | .polygon exterior holes => polygonArea exterior holes
  | .multiPolygon parts => (parts.map fun pr => polygonArea pr.1 pr.2).sum

/-- `shapely.ops.transform(transformer.transform, geom)` (`app.py` line
140): apply a coordinate map to every vertex of the geometry. -/
def transformGeom (proj : Point → Point) : Geometry → Geometry
  | .polygon exterior holes =>
      .polygon (exterior.map proj) (holes.map (List.map proj))
  | .multiPolygon parts =>
      .multiPolygon (parts.map fun pr => (pr.1.map proj, pr.2.map (List.map proj)))

/-- `calculate_polygon_area` (`app.py` lines 137-142): reproject the
geometry, take shapely's planar area in m², divide by 10000 for hectares.
The pyproj transformer from EPSG:4326 to EPSG:3857 lives in the external
pyproj library, so the coordinate map is passed in as `proj`. -/
def calculate_polygon_area (proj : Point → Point) (geom : Geometry) : ℚ :=
  let projected_geom := transformGeom proj geom
  let area_m2 := shapelyArea projected_geom
  area_m2 / 10000

/-- `fetch_etref_nasa` (`app.py` lines 106-132).  The HTTP exchange with
NASA POWER is abstracted to its observable pieces: the response status
code, and the parse of `data["properties"]["parameter"]["PET"]` into its
list of daily values (`none` when the key path is absent, the `KeyError`
being caught by the `except` clause).  On status 200 the source averages
the values with `sum(pet_values) / len(pet_values)`; an empty record set
raises `ZeroDivisionError`, which the same `except` clause turns into
`None`.  Any non-200 status yields `None`. -/
def fetch_etref_nasa (status_code : ℕ) (pet_data : Option (List ℚ)) :
    Option ℚ :=
  if status_code = 200 then
    match pet_data with
    | some pet_values =>
        if pet_values.length = 0 then none
        else some (pet_values.sum / pet_values.length)
    | none => none
  else none

/-- Outcome of the "Run Integrated Simulation" button branch: either an
`st.error` message or the displayed irrigation figures. -/
inductive SimOutcome where
  | error (msg : String)
  | results (ET_crop net_irrigation gross_irrigation : ℚ)
deriving DecidableEq, Repr

/-- The `st.error` text of `app.py` line 352. -/
def fetchErrorMsg : String :=
  "Failed to fetch required remote sensing/weather data. Please check inputs."

/-- The `st.error` text of `app.py` line 356. -/
def aquacropErrorMsg : String := "Aquacrop simulation failed."

/-- The "Run Integrated Simulation" branch (`app.py` lines 347-369).  The
three fetches and the external AquaCrop spreadsheet bridge are abstracted
to their results: `weather_df` (a table whose content feeds only the
external bridge, hence `Option Unit`), `et0_value`, `ndvi_value`, and
`aquacrop_out` (the `ET_crop` cell the bridge reads back, `none` when the
spreadsheet fails).  If any fetch returned `None` the branch stops with one
fixed error message; otherwise a failed simulation stops with its own
message, and a successful one computes net and gross irrigation with a
fixed efficiency of 75%. -/
def runIntegratedSimulation (weather_df : Option Unit)
    (et0_value ndvi_value : Option ℚ) (aquacrop_out : Option ℚ)
    (field_area : ℚ) : SimOutcome :=
  if weather_df = none ∨ et0_value = none ∨ ndvi_value = none then
    .error fetchErrorMsg
  else
    match aquacrop_out with
    | none => .error aquacropErrorMsg
    | some simulated_ET_crop =>
        let net_irrigation := simulated_ET_crop * field_area * 10
        let gross_irrigation := net_irrigation / (75 / 100)
        .results simulated_ET_crop net_irrigation gross_irrigation

/-- Every lookup in the two-entry `params` dict yields the same parameter
set: "Rice" and "Custom" are written with identical fields and every other
name falls back to "Custom". -/
theorem profileFor_eq (crop : String) : profileFor crop = riceProfile := by
  unfold profileFor
  split
  · rfl
  · split <;> rfl

/-- Closed form of the crop-coefficient function once the (unique) profile
values are substituted. -/
theorem kcb_eq (ndvi : ℚ) (crop : String) :
    calculate_kcb_from_ndvi ndvi crop
      = 17/20 * ((max (1/10 : ℚ) (min ndvi (9/10)) - 1/10) / (4/5)) + 3/20 := by
  unfold calculate_kcb_from_ndvi
  rw [profileFor_eq]
  norm_num [riceProfile]

/-- Unfolding of `calculate_irrigation` for a nonzero efficiency. -/
theorem calculate_irrigation_eq (et0 Kcb field_area efficiency : ℚ)
    (h : efficiency ≠ 0) :
    calculate_irrigation et0 Kcb field_area efficiency
      = some (et0 * Kcb, et0 * Kcb * field_area * 10,
              et0 * Kcb * field_area * 10 / (efficiency / 100)) := by
  unfold calculate_irrigation
  rw [if_neg]
  rw [div_eq_zero_iff]
  push_neg
  exact ⟨h, by norm_num⟩

/-- Claim C1: `calculate_irrigation` computes `et_crop = et0 * kcb`,
`net = et_crop * area * 10`, and `gross = net / (efficiency / 100)`; in
particular at `et0 = 5`, `kcb = 0.575`, `area = 2`, `efficiency = 75` it
returns `et_crop = 2.875`, `net = 57.5`, `gross = 230/3 ≈ 76.67`. -/
theorem C1_irrigation_formula (et0 kcb area eff : ℚ) (h : eff ≠ 0) :
    calculate_irrigation et0 kcb area eff
      = some (et0 * kcb, et0 * kcb * area * 10,
              et0 * kcb * area * 10 / (eff / 100))
    ∧ calculate_irrigation 5 (23/40) 2 75 = some (23/8, 115/2, 230/3) := by
  refine ⟨calculate_irrigation_eq et0 kcb area eff h, ?_⟩
  rw [calculate_irrigation_eq 5 (23/40) 2 75 (by norm_num)]
  norm_num

/-- Witness for C1 at the concrete inputs of the claim. -/
theorem C1_irrigation_formula_witness :
    (75 : ℚ) ≠ 0
    ∧ calculate_irrigation 5 (23/40) 2 75 = some (23/8, 115/2, 230/3) :=
  ⟨by norm_num, (C1_irrigation_formula 5 (23/40) 2 75 (by norm_num)).2⟩

/-- Claim C5: at efficiency 100 the gross irrigation equals the net
irrigation, and at efficiency 50 the gross is exactly twice the net. -/
theorem C5_efficiency_identity_and_double (et0 kcb area : ℚ) :
    calculate_irrigation et0 kcb area 100
      = some (et0 * kcb, et0 * kcb * area * 10, et0 * kcb * area * 10)
    ∧ calculate_irrigation et0 kcb area 50
      = some (et0 * kcb, et0 * kcb * area * 10, 2 * (et0 * kcb * area * 10)) := by
  constructor
  · rw [calculate_irrigation_eq et0 kcb area 100 (by norm_num)]
    norm_num
  · rw [calculate_irrigation_eq et0 kcb area 50 (by norm_num)]
    norm_num
    ring

/-- Counterexample to claim C4: at the negative efficiency −50 the code
signals nothing, returning the ordinary triple with a negative gross
irrigation of −115 m³/day. -/
theorem C4_counterexample :
    calculate_irrigation 5 (23/40) 2 (-50) = some (23/8, 115/2, -115) := by
  rw [calculate_irrigation_eq 5 (23/40) 2 (-50) (by norm_num)]
  norm_num

/-- Claim C4 amended: `calculate_irrigation` has no efficiency guard: a
zero efficiency hits an unguarded division by zero (an uncaught Python
`ZeroDivisionError`, embedded as `none`), and a negative efficiency
silently yields a negative gross irrigation. -/
theorem C4_no_efficiency_guard (et0 kcb area eff : ℚ) :
    calculate_irrigation et0 kcb area 0 = none
    ∧ (eff < 0 → 0 < et0 * kcb * area →
        ∃ gross, calculate_irrigation et0 kcb area eff
            = some (et0 * kcb, et0 * kcb * area * 10, gross) ∧ gross < 0) := by
  constructor
  · unfold calculate_irrigation
    norm_num
  · intro heff hpos
    refine ⟨et0 * kcb * area * 10 / (eff / 100),
            calculate_irrigation_eq et0 kcb area eff (ne_of_lt heff), ?_⟩
    apply div_neg_of_pos_of_neg
    · linarith
    · linarith

/-- Witness for the amended C4 at concrete inputs. -/
theorem C4_no_efficiency_guard_witness :
    calculate_irrigation 5 (23/40) 2 0 = none
    ∧ ∃ gross, calculate_irrigation 5 (23/40) 2 (-50)
        = some (5 * (23/40), 5 * (23/40) * 2 * 10, gross) ∧ gross < 0 :=
  ⟨(C4_no_efficiency_guard 5 (23/40) 2 (-50)).1,
   (C4_no_efficiency_guard 5 (23/40) 2 (-50)).2 (by norm_num) (by norm_num)⟩

/-- Claim C2: for every crop profile the code defines (all carrying
`eta = 1 > 0`), `calculate_kcb_from_ndvi` is monotonically non-decreasing
in NDVI and clamped: at or below `VI_min` it returns `Kcb_min`, at or above
`VI_max` it returns `Kcb_max`. -/
theorem C2_kcb_monotone_and_clamped :
    (∀ (crop : String) (x y : ℚ), x ≤ y →
        calculate_kcb_from_ndvi x crop ≤ calculate_kcb_from_ndvi y crop)
    ∧ (∀ (crop : String) (x : ℚ), x ≤ (profileFor crop).VI_min →
        calculate_kcb_from_ndvi x crop = (profileFor crop).Kcb_min)
    ∧ (∀ (crop : String) (x : ℚ), (profileFor crop).VI_max ≤ x →
        calculate_kcb_from_ndvi x crop = (profileFor crop).Kcb_max) := by
  refine ⟨?_, ?_, ?_⟩
  · intro crop x y hxy
    rw [kcb_eq, kcb_eq]
    have hc : max (1/10 : ℚ) (min x (9/10)) ≤ max (1/10) (min y (9/10)) :=
      max_le_max le_rfl (min_le_min hxy le_rfl)
    linarith
  · intro crop x hx
    rw [profileFor_eq] at hx ⊢
    have hx' : x ≤ (1/10 : ℚ) := by simpa [riceProfile] using hx
    rw [kcb_eq]
    rw [min_eq_left (le_trans hx' (by norm_num)), max_eq_left hx']
    norm_num [riceProfile]
  · intro crop x hx
    rw [profileFor_eq] at hx ⊢
    have hx' : (9/10 : ℚ) ≤ x := by simpa [riceProfile] using hx
    rw [kcb_eq]
    rw [min_eq_right hx', max_eq_right (by norm_num)]
    norm_num [riceProfile]

/-- Witness for C2 at crop "Rice" with NDVI 0 and 1. -/
theorem C2_kcb_monotone_and_clamped_witness :
    calculate_kcb_from_ndvi 0 "Rice" ≤ calculate_kcb_from_ndvi 1 "Rice"
    ∧ calculate_kcb_from_ndvi 0 "Rice" = (profileFor "Rice").Kcb_min
    ∧ calculate_kcb_from_ndvi 1 "Rice" = (profileFor "Rice").Kcb_max :=
  ⟨C2_kcb_monotone_and_clamped.1 "Rice" 0 1 (by norm_num),
   C2_kcb_monotone_and_clamped.2.1 "Rice" 0
     (by rw [profileFor_eq]; norm_num [riceProfile]),
   C2_kcb_monotone_and_clamped.2.2 "Rice" 1
     (by rw [profileFor_eq]; norm_num [riceProfile])⟩

/-- Claim C6: under the "Rice" profile, NDVI 0.5 yields
`0.15 + 0.85 * (0.40 / 0.80) = 0.575 = 23/40`. -/
theorem C6_rice_kcb_at_half :
    calculate_kcb_from_ndvi (1/2) "Rice" = 3/20 + 17/20 * (2/5 / (4/5))
    ∧ calculate_kcb_from_ndvi (1/2) "Rice" = 23/40 := by
  have h1 : min (1/2 : ℚ) (9/10) = 1/2 := min_eq_left (by norm_num)
  have h2 : max (1/10 : ℚ) (1/2) = 1/2 := max_eq_right (by norm_num)
  constructor <;> · rw [kcb_eq, h1, h2]; norm_num

/-- Claim C9: the crop-name argument is irrelevant: both defined profiles
carry identical parameters and unknown names fall back to "Custom", so
every crop name gives the same coefficient as "Rice". -/
theorem C9_crop_name_irrelevant (ndvi : ℚ) (crop : String) :
    calculate_kcb_from_ndvi ndvi crop = calculate_kcb_from_ndvi ndvi "Rice" := by
  rw [kcb_eq, kcb_eq]

/-- Claim C10: on a status-200 response, `fetch_etref_nasa` returns the
single scalar `sum / count` of the parsed daily PET values, and on an
empty parsed record set it returns `none` (the division by zero is caught)
rather than propagating an exception. -/
theorem C10_etref_mean_or_none (vs : List ℚ) :
    (vs ≠ [] → fetch_etref_nasa 200 (some vs) = some (vs.sum / vs.length))
    ∧ fetch_etref_nasa 200 (some []) = none := by
  constructor
  · intro h
    have hl : vs.length ≠ 0 := fun hl => h (List.length_eq_zero.mp hl)
    simp [fetch_etref_nasa, hl]
  · rfl

/-- Witness for C10 on the two-day record `[2, 4]`, whose mean is 3. -/
theorem C10_etref_mean_or_none_witness :
    fetch_etref_nasa 200 (some [2, 4]) = some 3
    ∧ fetch_etref_nasa 200 (some []) = none := by
  refine ⟨?_, (C10_etref_mean_or_none []).2⟩
  rw [(C10_etref_mean_or_none [2, 4]).1 (by simp)]
  norm_num

/-- Doubling both coordinates of a point: the spatial-scale doubling of
the testable property in the spec, applied in the projected plane. -/
def scale2 (p : Point) : Point := (2 * p.1, 2 * p.2)

/-- One shoelace term quadruples when both endpoints are doubled. -/
theorem cross_scale2 (a b : Point) : cross (scale2 a) (scale2 b) = 4 * cross a b := by
  unfold cross scale2
  ring

/-- The shoelace sum of a ring quadruples when every vertex is doubled. -/
theorem shoelaceSum_scale2 (l : List Point) :
    shoelaceSum (l.map scale2) = 4 * shoelaceSum l := by
  induction l with
  | nil => simp [shoelaceSum]
  | cons a t ih =>
    cases t with
    | nil => simp [shoelaceSum]
    | cons b r =>
      simp only [List.map_cons] at ih ⊢
      simp only [shoelaceSum, cross_scale2]
      rw [ih]
      ring

/-- A polygon's shapely area quadruples when every vertex is doubled. -/
theorem polygonArea_scale2 (exterior : List Point) (holes : List (List Point)) :
    polygonArea (exterior.map scale2) (holes.map (List.map scale2))
      = 4 * polygonArea exterior holes := by
  unfold polygonArea
  rw [shoelaceSum_scale2, abs_mul]
  have habs : |(4 : ℚ)| = 4 := by norm_num
  rw [habs, List.map_map]
  have hfun : ((fun h => |shoelaceSum h| / 2) ∘ List.map scale2)
      = fun h => 4 * (|shoelaceSum h| / 2) := by
    funext h
    simp only [Function.comp, shoelaceSum_scale2, abs_mul, habs]
    ring
  rw [hfun, List.sum_map_mul_left]
  ring

/-- Any geometry's shapely area quadruples when every vertex is doubled. -/
theorem shapelyArea_scale2 (geom : Geometry) :
    shapelyArea (transformGeom scale2 geom) = 4 * shapelyArea geom := by
  cases geom with
  | polygon exterior holes =>
    simpa [transformGeom, shapelyArea] using polygonArea_scale2 exterior holes
  | multiPolygon parts =>
    simp only [transformGeom, shapelyArea, List.map_map]
    have hfun : ((fun pr => polygonArea pr.1 pr.2)
          ∘ fun pr : List Point × List (List Point) =>
            (pr.1.map scale2, pr.2.map (List.map scale2)))
        = fun pr => 4 * polygonArea pr.1 pr.2 := by
      funext pr
      exact polygonArea_scale2 pr.1 pr.2
    rw [hfun, List.sum_map_mul_left]

/-- Applying a composed coordinate map is applying the maps in turn. -/
theorem transformGeom_comp (f g : Point → Point) (geom : Geometry) :
    transformGeom (fun p => f (g p)) geom
      = transformGeom f (transformGeom g geom) := by
  cases geom with
  | polygon exterior holes =>
    simp [transformGeom, List.map_map, Function.comp]
  | multiPolygon parts =>
    simp [transformGeom, List.map_map, Function.comp]

/-- Claim C7: the hectare figure is the planar area of the reprojected
geometry divided by 10000, and doubling the spatial scale of every vertex
(in the projected plane) quadruples the computed area. -/
theorem C7_projected_area_and_scaling (proj : Point → Point) (geom : Geometry) :
    calculate_polygon_area proj geom
      = shapelyArea (transformGeom proj geom) / 10000
    ∧ calculate_polygon_area (fun p => scale2 (proj p)) geom
      = 4 * calculate_polygon_area proj geom := by
  refine ⟨rfl, ?_⟩
  simp only [calculate_polygon_area]
  rw [transformGeom_comp scale2 proj geom, shapelyArea_scale2]
  ring

/-- Counterexample to claim C3: on the empty polygon the code defines no
`GeometryError` and raises nothing; it silently returns area 0. -/
theorem C3_counterexample :
    calculate_polygon_area (fun p => p) (Geometry.polygon [] []) = 0 := by
  simp [calculate_polygon_area, transformGeom, shapelyArea, polygonArea,
    shoelaceSum]

/-- Claim C3 amended: `calculate_polygon_area` performs no validity check
and no `GeometryError` exists anywhere in the code: an empty (degenerate)
polygon silently yields area 0 under every projection, while the areas of
a multi-part geometry are summed. -/
theorem C3_no_geometry_error (proj : Point → Point)
    (parts : List (List Point × List (List Point))) :
    calculate_polygon_area proj (Geometry.polygon [] []) = 0
    ∧ calculate_polygon_area proj (Geometry.multiPolygon parts)
      = (parts.map fun pr =>
          calculate_polygon_area proj (Geometry.polygon pr.1 pr.2)).sum := by
  constructor
  · simp [calculate_polygon_area, transformGeom, shapelyArea, polygonArea,
      shoelaceSum]
  · simp only [calculate_polygon_area, transformGeom, shapelyArea, List.map_map]
    rw [div_eq_mul_inv, ← List.sum_map_mul_right]
    simp [Function.comp, div_eq_mul_inv]

/-- Counterexample to claim C8: the report does not say which precondition
is missing: a missing weather table and a missing NDVI value produce the
identical generic error message. -/
theorem C8_counterexample :
    runIntegratedSimulation none (some 5) (some (1/2)) (some 3) 2
      = SimOutcome.error fetchErrorMsg
    ∧ runIntegratedSimulation (some ()) (some 5) none (some 3) 2
      = SimOutcome.error fetchErrorMsg := by
  constructor <;> rfl

/-- Claim C8 amended: whenever the weather table, the reference ET, or the
NDVI value is missing, the simulation branch short-circuits with the one
generic message "Failed to fetch required remote sensing/weather data.
Please check inputs." and produces no irrigation estimate; the message does
not identify which input is missing. -/
theorem C8_short_circuit_generic (weather_df : Option Unit)
    (et0_value ndvi_value aquacrop_out : Option ℚ) (field_area : ℚ)
    (h : weather_df = none ∨ et0_value = none ∨ ndvi_value = none) :
    runIntegratedSimulation weather_df et0_value ndvi_value aquacrop_out
        field_area
      = SimOutcome.error fetchErrorMsg := by
  unfold runIntegratedSimulation
  rw [if_pos h]

/-- Witness for the amended C8 with only the NDVI value missing. -/
theorem C8_short_circuit_generic_witness :
    runIntegratedSimulation (some ()) (some 7) none none 1
      = SimOutcome.error fetchErrorMsg :=
  C8_short_circuit_generic (some ()) (some 7) none none 1 (Or.inr (Or.inr rfl))

end ArgriAI
